import Mathlib

/-!
# The inbox controller of static/whatsapp.js

A shallow embedding of the browser script: the global state object, the part
of the page it reads and writes, and the trace of what it asks of the outside
world (fetch calls, dialogs, timers, asynchronous calls it starts without
awaiting them).

An async function runs synchronously up to its first await, so each one is
split in two: a Start function (the code before the first await, which issues
the first request) and a Resume function (the code after it, given what the
backend answered). A caller that does not await the call runs only the Start
part; the continuation is a later task of the event loop.
-/

namespace WhatsApp

/-! ## Values -/

/-- JSON values as far as the script looks at them: it only tests them for
truthiness. -/
inductive JSVal where
  | undefined
  | null
  | bool (b : Bool)
  | num (n : Int)
  | str (s : String)
  | object
  deriving DecidableEq, Repr

/-- Truthiness of a value in a condition. -/
def JSVal.truthy : JSVal → Bool
  | .undefined => false
  | .null => false
  | .bool b => b
  | .num n => n != 0
  | .str s => s != ""
  | .object => true

/-- Truthiness of a string-or-null value such as state.selectedPhone. -/
def truthyStr : Option String → Bool
  | none => false
  | some s => s != ""

/-- A contact as returned by GET /api/contacts. -/
structure Contact where
  phone : String
  client_name : Option String
  last_time : Option String
  last_direction : Option String
  last_message : Option String
  follow_up_open : Bool
  deriving DecidableEq, Repr

/-- A message as returned by GET /api/conversation/phone. -/
structure Message where
  id : Int
  message : Option String
  direction : Option String
  timestamp : Option String
  status : Option String
  follow_up_needed : Bool
  deriving DecidableEq, Repr

/-- An entry of a file input: its name and its size in bytes. -/
structure File where
  name : String
  size : Nat
  deriving DecidableEq, Repr

/-- The object state.filters. -/
structure Filters where
  byDate : Bool
  date : Option String
  onlyFollowUp : Bool
  onlyUnread : Bool
  deriving DecidableEq, Repr

/-- The global state object. The object newMessageAlerts only ever receives
the value true (lines 122 and 180) and loses keys through delete, so it is
kept as the list of its own keys in insertion order. -/
structure State where
  selectedPhone : Option String
  contacts : List Contact
  messages : List Message
  offset : Int
  limit : Int
  autoRefresh : Bool
  lastMessageCount : List (String × Nat)
  lastContactUpdate : List (String × String)
  newMessageAlerts : List String
  filters : Filters
  deriving DecidableEq, Repr

/-- The filters of the initial state (lines 12 to 17). -/
def initialFilters : Filters :=
  { byDate := false, date := none, onlyFollowUp := false, onlyUnread := false }

/-- The initial state (lines 2 to 18). -/
def initialState : State :=
  { selectedPhone := none, contacts := [], messages := [], offset := 0, limit := 20,
    autoRefresh := true, lastMessageCount := [], lastContactUpdate := [],
    newMessageAlerts := [], filters := initialFilters }

/-! ## The alert object -/

/-- The test state.newMessageAlerts[phone]: the key is present (its value is
then true). -/
def hasAlert (alerts : List String) (phone : String) : Bool :=
  alerts.contains phone

/-- The assignment state.newMessageAlerts[phone] = true: an existing key keeps
its place, a new one goes last. -/
def setAlert (alerts : List String) (phone : String) : List String :=
  if alerts.contains phone then alerts else alerts ++ [phone]

/-- The statement delete state.newMessageAlerts[phone]. -/
def deleteAlert (alerts : List String) (phone : String) : List String :=
  alerts.filter (fun p => p != phone)

/-- The assignment state.lastMessageCount[phone] = count. -/
def setCount : List (String × Nat) → String → Nat → List (String × Nat)
  | [], phone, n => [(phone, n)]
  | (p, m) :: rest, phone, n =>
    if p == phone then (p, n) :: rest else (p, m) :: setCount rest phone n

/-! ## The outside world -/

/-- The fetch calls of the script that the model needs. -/
inductive Request where
  | getContacts (onlyFollowUp : Bool) (filterDate : Option String)
  | getAutomation (phone : String)
  | patchAutomation (phone : String) (enabled : Bool)
  | postAlert (phone : String)
  | deleteAlertReq (phone : String)
  | getConversation (phone : String) (limit : Int) (offset : Int)
  | sendFile (phone : String) (file : File)
  deriving DecidableEq, Repr

/-- Async functions the script calls without awaiting them. -/
inductive Task where
  | fetchContacts
  | fetchConversation (phone : String)
  | loadAutomationStatus (phone : String)
  | checkAndSetNewMessageAlert (phone : String)
  deriving DecidableEq, Repr

/-- What the script does to the outside world, in order. -/
inductive Event where
  | fetch (r : Request)
  | invoke (t : Task)
  | timeout (ms : Nat) (t : Task)
  | alertTooLarge (fileName : String)
  | alertUploadFailed (fileName : String)
  deriving DecidableEq, Repr

/-- One rendered row of the contact list: the contact it shows, whether it has
the class active, the colour index and the initials of its avatar, and whether
the unread badge is in its markup. The initials are kept as the UTF-16 code
units of the string on which toUpperCase is called. Time and preview are not
kept: formatContactTime, escapeHtml and substring do not throw on a contact
whose fields are strings or null. -/
structure ChatItem where
  contact : Contact
  active : Bool
  colorIndex : Nat
  initials : List Nat
  badge : Bool
  deriving DecidableEq, Repr

/-- The elements of the page the modelled functions read or write. The message
pane (chatMessages) and the name header are written but never read back, and
are left out. -/
structure Dom where
  searchContacts : String
  contactsList : List ChatItem
  noContactsNote : Bool
  paginationInfo : Int × Int
  prevDisabled : Bool
  nextDisabled : Bool
  automationToggle : Bool
  inputDisabled : Bool
  followUpToggle : Bool
  chatShown : Bool
  filterByDate : Bool
  filterDate : String
  filterDateDisabled : Bool
  filterOnlyFU : Bool
  filterUnread : Bool
  fileInputValue : List File
  deriving DecidableEq, Repr

/-- The page as the HTML delivers it, before any script has run. -/
def initialDom : Dom :=
  { searchContacts := "", contactsList := [], noContactsNote := false,
    paginationInfo := (0, 0), prevDisabled := false, nextDisabled := false,
    automationToggle := false, inputDisabled := false, followUpToggle := false,
    chatShown := false, filterByDate := false, filterDate := "",
    filterDateDisabled := true, filterOnlyFU := false, filterUnread := false,
    fileInputValue := [] }

/-- The state object, the page, and the trace of events so far. -/
structure World where
  state : State
  dom : Dom
  log : List Event
  deriving DecidableEq, Repr

/-- Append one event to the trace. -/
def World.emit (w : World) (e : Event) : World :=
  { w with log := w.log ++ [e] }

/-! ## Strings -/

/-- Whether the characters q start the characters s. -/
def startsWithChars : List Char → List Char → Bool
  | _, [] => true
  | [], _ :: _ => false
  | c :: cs, d :: ds => c == d && startsWithChars cs ds

/-- Whether the characters q occur in s as a contiguous run. -/
def includesChars : List Char → List Char → Bool
  | [], q => startsWithChars [] q
  | c :: cs, q => startsWithChars (c :: cs) q || includesChars cs q

/-- The call s.includes(q). -/
def includes (s q : String) : Bool :=
  includesChars s.data q.data

/-- ASCII lower-casing, one instance of the case mapping the functions below
take as a parameter. -/
def asciiLower (s : String) : String :=
  ⟨s.data.map Char.toLower⟩

/-- The UTF-16 code units of one character. -/
def utf16Char (c : Char) : List Nat :=
  if c.toNat < 65536 then [c.toNat]
  else [55296 + (c.toNat - 65536) / 1024, 56320 + (c.toNat - 65536) % 1024]

/-- The UTF-16 code units of characters, which is what indexing, charCodeAt and
split see of a string. -/
def utf16Chars : List Char → List Nat
  | [] => []
  | c :: cs => utf16Char c ++ utf16Chars cs

/-- The UTF-16 code units of a string. -/
def utf16 (s : String) : List Nat :=
  utf16Chars s.data

/-- The call name.split(" ") on code units: the words between the spaces (code
unit 32); a string without a space is one word. -/
def splitAtSpaces : List Nat → List (List Nat)
  | [] => [[]]
  | u :: us =>
    if u = 32 then [] :: splitAtSpaces us
    else
      match splitAtSpaces us with
      | [] => [[u]]
      | word :: words => (u :: word) :: words

/-! ## Utility functions -/

/-- The function getAvatarColor (lines 24 to 31): the sum of the code units
modulo 8, and 2 for a missing or empty name. -/
def getAvatarColor (name : Option String) : Nat :=
  match name with
  | none => 2
  | some n => if n = "" then 2 else (utf16 n).sum % 8

/-- The function getAvatarInitials (lines 33 to 40), up to the case mapping: the
code units of the string on which toUpperCase is called, or none when the
function throws. With two or more words it adds words[0][0] and the first unit
of the last word; an empty word gives undefined there, a string plus undefined
is the string with the text undefined appended, and undefined plus undefined
is NaN, which has no toUpperCase, so the call throws TypeError. -/
def getAvatarInitials (name : Option String) : Option (List Nat) :=
  match name with
  | none => some (utf16 "?")
  | some n =>
    if n = "" || n = "Unknown" then some (utf16 "?")
    else
      let words := splitAtSpaces (utf16 n)
      if words.length ≥ 2 then
        match words.head?.bind List.head?, words.getLast?.bind List.head? with
        | some a, some b => some [a, b]
        | some a, none => some (a :: utf16 "undefined")
        | none, some b => some (utf16 "undefined" ++ [b])
        | none, none => none
      else some ((utf16 n).take 2)

/-! ## The script -/

section Script

variable (toLowerCase : String → String)

/-- The predicate of the first filter in renderContacts (lines 409 to 413). -/
def matchesSearch (searchQuery : String) (contact : Contact) : Bool :=
  let name := toLowerCase (contact.client_name.getD "")
  let phone := toLowerCase contact.phone
  includes name searchQuery || includes phone searchQuery

/-- The row the forEach of renderContacts builds for one contact (lines 429 to
471), or none when getAvatarInitials throws before the row is appended. -/
def chatItem (s : State) (contact : Contact) : Option ChatItem :=
  let colorIndex := getAvatarColor contact.client_name
  match getAvatarInitials contact.client_name with
  | none => none
  | some initials =>
    some { contact := contact,
           active := decide (some contact.phone = s.selectedPhone),
           colorIndex := colorIndex,
           initials := initials,
           badge := hasAlert s.newMessageAlerts contact.phone }

/-- The forEach of renderContacts (lines 429 to 471): the rows appended to the
container, and whether a TypeError ended the loop. A throw leaves the rows
appended before it and skips the contacts after it. -/
def renderRows (s : State) : List Contact → List ChatItem × Bool
  | [] => ([], false)
  | contact :: rest =>
    match chatItem s contact with
    | none => ([], true)
    | some item => (item :: (renderRows s rest).1, (renderRows s rest).2)

/-- The list filteredContacts of renderContacts after both filters (lines 405
to 421). The strict test against true and the truthiness test of the badge
agree on an object whose values are all true. -/
def filteredContacts (w : World) : List Contact :=
  let searchQuery := toLowerCase w.dom.searchContacts
  let filteredContacts := w.state.contacts.filter (matchesSearch toLowerCase searchQuery)
  if w.state.filters.onlyUnread then
    filteredContacts.filter (fun contact => hasAlert w.state.newMessageAlerts contact.phone)
  else filteredContacts

/-- The function renderContacts (lines 401 to 472): the world it leaves, and
whether it threw. It has no try of its own, so a TypeError of getAvatarInitials
leaves the rows appended so far and goes to the caller. -/
def renderContacts (w : World) : World × Bool :=
  if (filteredContacts toLowerCase w).length = 0 then
    ({ w with dom := { w.dom with contactsList := [], noContactsNote := true } }, false)
  else
    let rows := renderRows w.state (filteredContacts toLowerCase w)
    ({ w with dom := { w.dom with contactsList := rows.1, noContactsNote := false } }, rows.2)

/-- The function updatePaginationInfo (lines 241 to 277). -/
def updatePaginationInfo (w : World) : World :=
  let start := w.state.offset + 1
  let stop := w.state.offset + (w.state.messages.length : Int)
  { w with dom := { w.dom with
      paginationInfo := (start, stop),
      prevDisabled := decide (w.state.offset = 0),
      nextDisabled := decide ((w.state.messages.length : Int) < w.state.limit) } }

/-- The function renderMessages (lines 571 to 695), as far as it writes to the
modelled page: the follow-up toggle takes the flag of the latest message. -/
def renderMessages (w : World) : World :=
  match w.state.messages.getLast? with
  | none => w
  | some latest => { w with dom := { w.dom with followUpToggle := latest.follow_up_needed } }

/-- The function toggleInputArea (lines 279 to 313). -/
def toggleInputArea (w : World) (automationEnabled : Bool) : World :=
  { w with dom := { w.dom with inputDisabled := automationEnabled } }

/-- The function loadAutomationStatus up to its await (lines 315 to 317). -/
def loadAutomationStatusStart (w : World) (phone : String) : World :=
  w.emit (.fetch (.getAutomation phone))

/-- The function loadAutomationStatus after its await (lines 318 to 326): reply
is the value of data.automation_enabled, or none when the request or the
parsing of its body threw. -/
def loadAutomationStatusResume (w : World) (reply : Option JSVal) : World :=
  match reply with
  | none => w
  | some v =>
    toggleInputArea { w with dom := { w.dom with automationToggle := v.truthy } } v.truthy

/-- The function checkAndSetNewMessageAlert up to its first await (lines 174
to 176). -/
def checkAndSetNewMessageAlertStart (w : World) (phone : String) : World :=
  w.emit (.fetch (.getAutomation phone))

/-- The function checkAndSetNewMessageAlert after its first await (lines 177 to
198): reply is the value of data.automation_enabled, or none when the request
threw; postOk tells whether the POST that persists the alert came back. The
call of renderContacts is the last statement of the try, so a throw of it only
reaches the catch, which logs. -/
def checkAndSetNewMessageAlertResume (w : World) (phone : String)
    (reply : Option JSVal) (postOk : Bool) : World :=
  match reply with
  | none => w
  | some v =>
    if !v.truthy then
      let w1 := { w with state := { w.state with
                    newMessageAlerts := setAlert w.state.newMessageAlerts phone } }
      let w2 := w1.emit (.fetch (.postAlert phone))
      if postOk then (renderContacts toLowerCase w2).1 else w2
    else w

/-- The function checkAndSetNewMessageAlert run to its end. -/
def checkAndSetNewMessageAlert (w : World) (phone : String)
    (reply : Option JSVal) (postOk : Bool) : World :=
  checkAndSetNewMessageAlertResume toLowerCase (checkAndSetNewMessageAlertStart w phone)
    phone reply postOk

/-- The function loadAlertsFromBackend (lines 114 to 131), given the phones of
data.alerts, or none when the request threw or data.alerts is no array. -/
def loadAlertsFromBackend (w : World) (reply : Option (List String)) : World :=
  match reply with
  | none => w
  | some alerts =>
    { w with state := { w.state with
        newMessageAlerts := alerts.foldl setAlert w.state.newMessageAlerts } }

/-- The function fetchConversation up to its first await (lines 201 to 207). -/
def fetchConversationStart (w : World) (phone : String) : World :=
  w.emit (.fetch (.getConversation phone w.state.limit w.state.offset))

/-- The function fetchConversation after its first await (lines 208 to 237):
reply is the list of messages, or none when the request threw; autoReply
answers the awaited loadAutomationStatus; deleteOk tells whether the DELETE of
the alert came back. The call of renderContacts is the last statement of the
try, so a throw of it only reaches the catch, which logs. -/
def fetchConversationResume (w : World) (phone : String) (reply : Option (List Message))
    (autoReply : Option JSVal) (deleteOk : Bool) : World :=
  match reply with
  | none => w
  | some newMessages =>
    let currentCount := newMessages.length
    let w1 := { w with state := { w.state with
                  lastMessageCount := setCount w.state.lastMessageCount phone currentCount,
                  messages := newMessages } }
    let w2 := updatePaginationInfo w1
    let w3 := renderMessages w2
    let w4 := loadAutomationStatusResume (loadAutomationStatusStart w3 phone) autoReply
    if hasAlert w4.state.newMessageAlerts phone then
      let w5 := { w4 with state := { w4.state with
                    newMessageAlerts := deleteAlert w4.state.newMessageAlerts phone } }
      let w6 := w5.emit (.fetch (.deleteAlertReq phone))
      if deleteOk then (renderContacts toLowerCase w6).1 else w6
    else w4

/-- The function fetchConversation run to its end. -/
def fetchConversation (w : World) (phone : String) (reply : Option (List Message))
    (autoReply : Option JSVal) (deleteOk : Bool) : World :=
  fetchConversationResume toLowerCase (fetchConversationStart w phone) phone reply
    autoReply deleteOk

/-- The function setAutomationStatus up to its first await (lines 329 to 335). -/
def setAutomationStatusStart (w : World) (phone : String) (enabled : Bool) : World :=
  w.emit (.fetch (.patchAutomation phone enabled))

/-- The function setAutomationStatus after its first await (lines 336 to 351):
patchOk tells whether the PATCH came back, deleteOk whether the DELETE did. The
call of renderContacts is the last statement of the try, so a throw of it only
reaches the catch, which logs. -/
def setAutomationStatusResume (w : World) (phone : String) (enabled : Bool)
    (patchOk deleteOk : Bool) : World :=
  if patchOk then
    let w1 := toggleInputArea w enabled
    if enabled && hasAlert w1.state.newMessageAlerts phone then
      let w2 := { w1 with state := { w1.state with
                    newMessageAlerts := deleteAlert w1.state.newMessageAlerts phone } }
      let w3 := w2.emit (.fetch (.deleteAlertReq phone))
      if deleteOk then (renderContacts toLowerCase w3).1 else w3
    else w1
  else w

/-- The function setAutomationStatus run to its end. -/
def setAutomationStatus (w : World) (phone : String) (enabled : Bool)
    (patchOk deleteOk : Bool) : World :=
  setAutomationStatusResume toLowerCase (setAutomationStatusStart w phone enabled)
    phone enabled patchOk deleteOk

/-- The function fetchContacts up to its await (lines 132 to 143). -/
def fetchContactsStart (w : World) : World :=
  let filterDate :=
    if w.state.filters.byDate && truthyStr w.state.filters.date then w.state.filters.date
    else none
  w.emit (.fetch (.getContacts w.state.filters.onlyFollowUp filterDate))

/-- The body of the forEach in fetchContacts (lines 147 to 165) for one
returned contact. The call of checkAndSetNewMessageAlert is not awaited. -/
def checkContact (w : World) (contact : Contact) : World :=
  match w.state.contacts.find? (fun c => c.phone == contact.phone) with
  | none => w
  | some oldContact =>
    if contact.last_time != oldContact.last_time then
      if some contact.phone != w.state.selectedPhone &&
          (contact.last_direction == some "user" ||
            contact.last_direction == some "incoming") then
        checkAndSetNewMessageAlertStart
          (w.emit (.invoke (.checkAndSetNewMessageAlert contact.phone))) contact.phone
      else w
    else w

/-- The function fetchContacts after its await (lines 144 to 171): reply is the
returned list, or none when the request threw. The call of renderContacts is
the last statement of the try, so a throw of it only reaches the catch, which
logs. -/
def fetchContactsResume (w : World) (reply : Option (List Contact)) : World :=
  match reply with
  | none => w
  | some newContacts =>
    let w1 := newContacts.foldl checkContact w
    (renderContacts toLowerCase
      { w1 with state := { w1.state with contacts := newContacts } }).1

/-- The function fetchContacts run to its end. -/
def fetchContacts (w : World) (reply : Option (List Contact)) : World :=
  fetchContactsResume toLowerCase (fetchContactsStart w) reply

/-- The function selectContact (lines 474 to 518). Neither fetchConversation
nor loadAutomationStatus is awaited. The function has no try: when
renderContacts throws, or getAvatarInitials of line 487 does, the rest of the
function is not run. -/
def selectContact (w : World) (phone : String) : World :=
  let w1 := { w with state := { w.state with selectedPhone := some phone } }
  let w2 := { w1 with state := { w1.state with offset := 0 } }
  let w3 := fetchConversationStart (w2.emit (.invoke (.fetchConversation phone))) phone
  let r := renderContacts toLowerCase w3
  if r.2 then r.1
  else
    let w4 := r.1
    match w4.state.contacts.find? (fun c => c.phone == phone) with
    | none => w4
    | some contact =>
      let w5 := { w4 with dom := { w4.dom with chatShown := true } }
      match getAvatarInitials contact.client_name with
      | none => w5
      | some _ =>
        let w6 := { w5 with dom := { w5.dom with followUpToggle := contact.follow_up_open } }
        loadAutomationStatusStart (w6.emit (.invoke (.loadAutomationStatus phone))) phone

/-- The click handler of the removeFilters button (lines 805 to 822). -/
def removeFiltersClick (w : World) : World :=
  let w1 := { w with state := { w.state with filters := { w.state.filters with byDate := false } } }
  let w2 := { w1 with state := { w1.state with filters := { w1.state.filters with date := none } } }
  let w3 := { w2 with state := { w2.state with
                filters := { w2.state.filters with onlyFollowUp := false } } }
  let w4 := { w3 with state := { w3.state with
                filters := { w3.state.filters with onlyUnread := false } } }
  let w5 := { w4 with dom := { w4.dom with filterByDate := false, filterDate := "",
                                           filterDateDisabled := true, filterOnlyFU := false,
                                           filterUnread := false } }
  fetchContactsStart (w5.emit (.invoke .fetchContacts))

/-- The click handler of the prevBtn button (lines 879 to 885). -/
def prevBtnClick (w : World) : World :=
  match w.state.selectedPhone with
  | none => w
  | some phone =>
    if decide (w.state.offset > 0) && phone != "" then
      let w1 := { w with state := { w.state with
                    offset := max 0 (w.state.offset - w.state.limit) } }
      fetchConversationStart (w1.emit (.invoke (.fetchConversation phone))) phone
    else w

/-- The click handler of the nextBtn button (lines 887 to 893). -/
def nextBtnClick (w : World) : World :=
  match w.state.selectedPhone with
  | none => w
  | some phone =>
    if phone != "" && decide ((w.state.messages.length : Int) = w.state.limit) then
      let w1 := { w with state := { w.state with offset := w.state.offset + w.state.limit } }
      fetchConversationStart (w1.emit (.invoke (.fetchConversation phone))) phone
    else w

/-- The size limit of the fileInput handler (line 957), in bytes. -/
def maxFileSize : Nat := 16 * 1024 * 1024

/-- The function sendFileMessage (lines 979 to 999), awaited by its caller:
reply is response.ok, or none when the request threw. -/
def sendFileMessage (w : World) (phone : String) (file : File) (reply : Option Bool) :
    World × Bool :=
  let w1 := w.emit (.fetch (.sendFile phone file))
  match reply with
  | some true => (w1.emit (.timeout 500 (.fetchConversation phone)), true)
  | some false => (w1, false)
  | none => (w1, false)

/-- The loop of the fileInput handler (lines 956 to 974). The answer to the
n-th call of sendFileMessage is replies n; sent counts the calls made so far.
The handler reads state.selectedPhone anew for each file; nothing in the loop
writes it, so it is passed in as phone. -/
def fileLoop (replies : Nat → Option Bool) (phone : String) :
    World → Nat → List File → World
  | w, _, [] => w
  | w, sent, file :: rest =>
    if file.size > maxFileSize then
      fileLoop replies phone (w.emit (.alertTooLarge file.name)) sent rest
    else
      let r := sendFileMessage w phone file (replies sent)
      let w1 := if r.2 then r.1 else r.1.emit (.alertUploadFailed file.name)
      fileLoop replies phone w1 (sent + 1) rest

/-- The change handler of the fileInput element (lines 952 to 977). -/
def fileInputChange (w : World) (files : List File) (replies : Nat → Option Bool) : World :=
  match w.state.selectedPhone with
  | none => w
  | some phone =>
    if files.length = 0 || phone == "" then w
    else
      let w1 := fileLoop replies phone w 0 files
      { w1 with dom := { w1.dom with fileInputValue := [] } }

end Script

/-! ## Reading the trace -/

/-- The conversation requests of a trace, in order: phone, limit, offset. -/
def conversationRequests : List Event → List (String × Int × Int)
  | [] => []
  | .fetch (.getConversation phone limit offset) :: rest =>
    (phone, limit, offset) :: conversationRequests rest
  | _ :: rest => conversationRequests rest

/-- The calls of sendFileMessage in a trace, in order: each call issues one
POST of the file to /api/send_file. -/
def sentFiles : List Event → List (String × File)
  | [] => []
  | .fetch (.sendFile phone file) :: rest => (phone, file) :: sentFiles rest
  | _ :: rest => sentFiles rest

/-- The phones for which checkAndSetNewMessageAlert was invoked in a trace, in
order. -/
def alertChecks : List Event → List String
  | [] => []
  | .invoke (.checkAndSetNewMessageAlert phone) :: rest => phone :: alertChecks rest
  | _ :: rest => alertChecks rest

/-! ## What the properties speak of -/

/-- A click on Next advances the page: the handler increases state.offset by
exactly state.limit and refetches the conversation of the selected contact at
the new offset. -/
def nextAdvances (w : World) : Bool :=
  match w.state.selectedPhone with
  | none => false
  | some phone =>
    decide ((nextBtnClick w).state.offset = w.state.offset + w.state.limit) &&
    decide ((nextBtnClick w).log = w.log ++
      [Event.invoke (Task.fetchConversation phone),
        Event.fetch (Request.getConversation phone w.state.limit
          (w.state.offset + w.state.limit))])

/-- The test of the forEach body as one boolean: the first previous contact
with the same phone exists, its last_time differs, the phone is not the
selected one, and the last direction is user or incoming. -/
def hasNewActivity (s : State) (contact : Contact) : Bool :=
  match s.contacts.find? (fun c => c.phone == contact.phone) with
  | none => false
  | some oldContact =>
    contact.last_time != oldContact.last_time &&
      (some contact.phone != s.selectedPhone &&
        (contact.last_direction == some "user" || contact.last_direction == some "incoming"))

/-- Three contacts as the backend may return them; the name of the second
starts and ends with a space. -/
def threeContacts : List Contact :=
  [{ phone := "911", client_name := some "Alice", last_time := some "2025-01-01T10:00:00",
     last_direction := some "user", last_message := some "hi", follow_up_open := false },
   { phone := "922", client_name := some " Bob ", last_time := some "2025-01-01T09:00:00",
     last_direction := some "user", last_message := some "hello", follow_up_open := false },
   { phone := "933", client_name := some "Carol", last_time := some "2025-01-01T08:00:00",
     last_direction := some "user", last_message := none, follow_up_open := false }]

/-- The world at start-up once the three contacts are in state.contacts: empty
search box, no filter, no alert. -/
def threeContactsLoaded : World :=
  { state := { initialState with contacts := threeContacts }, dom := initialDom, log := [] }

/-- A message used in the examples. -/
def sampleMessage : Message :=
  { id := 1, message := some "hello", direction := some "user",
    timestamp := some "2025-01-01T10:00:00", status := none, follow_up_needed := false }

/-- A world in which a contact is selected and the page holds n messages, all
else as at start-up. -/
def pageOf (n : Nat) : World :=
  { state := { initialState with selectedPhone := some "919876543210",
                                 messages := List.replicate n sampleMessage },
    dom := initialDom, log := [] }

/-- A world in which a contact is selected, all else as at start-up. -/
def chatOpen : World := pageOf 0

/-- Three chosen files: the second is one byte over the limit, the third
exactly at it. -/
def chosenFiles : List File :=
  [{ name := "a.pdf", size := 1024 }, { name := "b.mp4", size := 16 * 1024 * 1024 + 1 },
    { name := "c.jpg", size := 16 * 1024 * 1024 }]

/-! ## Basic facts -/

@[simp] theorem emit_state (w : World) (e : Event) : (w.emit e).state = w.state := rfl

@[simp] theorem emit_dom (w : World) (e : Event) : (w.emit e).dom = w.dom := rfl

@[simp] theorem emit_log (w : World) (e : Event) : (w.emit e).log = w.log ++ [e] := rfl

@[simp] theorem renderContacts_state (f : String → String) (w : World) :
    (renderContacts f w).1.state = w.state := by
  unfold renderContacts
  split <;> rfl

@[simp] theorem renderContacts_log (f : String → String) (w : World) :
    (renderContacts f w).1.log = w.log := by
  unfold renderContacts
  split <;> rfl

theorem hasAlert_iff_mem (alerts : List String) (phone : String) :
    hasAlert alerts phone = true ↔ phone ∈ alerts := by
  simp [hasAlert]

theorem mem_setAlert (alerts : List String) (phone q : String) :
    q ∈ setAlert alerts phone ↔ q = phone ∨ q ∈ alerts := by
  unfold setAlert
  by_cases h : alerts.contains phone = true
  · have hm : phone ∈ alerts := by simpa using h
    rw [if_pos h]
    constructor
    · intro hq; exact Or.inr hq
    · rintro (rfl | hq)
      · exact hm
      · exact hq
  · rw [if_neg h]
    simp [or_comm]

theorem mem_deleteAlert (alerts : List String) (phone q : String) :
    q ∈ deleteAlert alerts phone ↔ q ∈ alerts ∧ q ≠ phone := by
  simp [deleteAlert]

theorem conversationRequests_append (l₁ l₂ : List Event) :
    conversationRequests (l₁ ++ l₂) = conversationRequests l₁ ++ conversationRequests l₂ := by
  induction l₁ with
  | nil => rfl
  | cons e rest ih =>
    cases e with
    | fetch r => cases r <;> simp [conversationRequests, ih]
    | invoke t => simp [conversationRequests, ih]
    | timeout ms t => simp [conversationRequests, ih]
    | alertTooLarge n => simp [conversationRequests, ih]
    | alertUploadFailed n => simp [conversationRequests, ih]

/-! ## Selecting a contact -/

/-- C1: for every prior world and every phone, selectContact(phone) leaves
state.selectedPhone equal to phone and state.offset equal to 0 (state.limit is
untouched), and the events it adds to the trace start with the unawaited call
of fetchConversation(phone) and its request for offset 0 and limit state.limit;
it issues no other conversation request. -/
theorem selectContact_requests_first_page (toLowerCase : String → String) (w : World)
    (phone : String) :
    (selectContact toLowerCase w phone).state.selectedPhone = some phone ∧
    (selectContact toLowerCase w phone).state.offset = 0 ∧
    (selectContact toLowerCase w phone).state.limit = w.state.limit ∧
    ∃ rest : List Event,
      (selectContact toLowerCase w phone).log =
        w.log ++ (Event.invoke (Task.fetchConversation phone) ::
          Event.fetch (Request.getConversation phone w.state.limit 0) :: rest) ∧
      conversationRequests rest = [] := by
  unfold selectContact
  dsimp only
  split
  · refine ⟨?_, ?_, ?_, [], ?_, rfl⟩ <;> simp [fetchConversationStart]
  · split
    · refine ⟨?_, ?_, ?_, [], ?_, rfl⟩ <;> simp [fetchConversationStart]
    · split
      · refine ⟨?_, ?_, ?_, [], ?_, rfl⟩ <;> simp [fetchConversationStart]
      · refine ⟨?_, ?_, ?_, [Event.invoke (Task.loadAutomationStatus phone),
            Event.fetch (Request.getAutomation phone)], ?_, rfl⟩ <;>
          simp [fetchConversationStart, loadAutomationStatusStart]

/-! ## Alerts -/

@[simp] theorem loadAutomationStatusResume_state (w : World) (reply : Option JSVal) :
    (loadAutomationStatusResume w reply).state = w.state := by
  cases reply <;> rfl

@[simp] theorem updatePaginationInfo_state (w : World) :
    (updatePaginationInfo w).state = w.state := rfl

@[simp] theorem renderMessages_state (w : World) : (renderMessages w).state = w.state := by
  unfold renderMessages
  split <;> rfl

/-- C2: for every prior world, phone and backend answer,
checkAndSetNewMessageAlert(phone) leaves an alert for phone exactly when the
backend reported automation_enabled as falsy or the alert was already there;
when the backend did not report a falsy value (automation enabled, or the
request failed) newMessageAlerts is unchanged; the alerts of other phones are
never touched. -/
theorem checkAndSetNewMessageAlert_alert_iff_chatbot_off (toLowerCase : String → String)
    (w : World) (phone : String) (reply : Option JSVal) (postOk : Bool) :
    (hasAlert (checkAndSetNewMessageAlert toLowerCase w phone reply postOk).state.newMessageAlerts
        phone = true ↔
      ((∃ v, reply = some v ∧ v.truthy = false) ∨
        hasAlert w.state.newMessageAlerts phone = true)) ∧
    ((¬ ∃ v, reply = some v ∧ v.truthy = false) →
      (checkAndSetNewMessageAlert toLowerCase w phone reply postOk).state.newMessageAlerts =
        w.state.newMessageAlerts) ∧
    (∀ q, q ≠ phone →
      hasAlert (checkAndSetNewMessageAlert toLowerCase w phone reply postOk).state.newMessageAlerts
          q = hasAlert w.state.newMessageAlerts q) := by
  unfold checkAndSetNewMessageAlert checkAndSetNewMessageAlertResume
    checkAndSetNewMessageAlertStart
  cases reply with
  | none => simp
  | some v =>
    cases hv : v.truthy with
    | true => simp [hv]
    | false =>
      have hset : ∀ q, hasAlert (setAlert w.state.newMessageAlerts phone) q = true ↔
          (q = phone ∨ hasAlert w.state.newMessageAlerts q = true) := by
        intro q
        rw [hasAlert_iff_mem, hasAlert_iff_mem, mem_setAlert]
      refine ⟨?_, ?_, ?_⟩
      · cases postOk <;> simp [hv, hset]
      · intro h
        exact absurd ⟨v, rfl, hv⟩ h
      · intro q hq
        have := hset q
        cases postOk <;> simp [hv] <;>
          (rw [Bool.eq_iff_iff, this]; simp [hq])

/-- C3: for every prior world and phone, once fetchConversation(phone) has
received its list of messages, state.newMessageAlerts has no entry for phone,
and every other phone has an entry exactly when it had one before the call
(whatever the automation request and the DELETE of the alert answer). -/
theorem fetchConversation_clears_alert (toLowerCase : String → String) (w : World)
    (phone : String) (newMessages : List Message) (autoReply : Option JSVal)
    (deleteOk : Bool) :
    phone ∉ (fetchConversation toLowerCase w phone (some newMessages) autoReply
        deleteOk).state.newMessageAlerts ∧
    ∀ q, q ≠ phone →
      (q ∈ (fetchConversation toLowerCase w phone (some newMessages) autoReply
          deleteOk).state.newMessageAlerts ↔ q ∈ w.state.newMessageAlerts) := by
  unfold fetchConversation fetchConversationResume fetchConversationStart
    loadAutomationStatusStart
  dsimp only
  simp only [loadAutomationStatusResume_state, emit_state, renderMessages_state,
    updatePaginationInfo_state]
  cases h : hasAlert w.state.newMessageAlerts phone with
  | false =>
    have hn : phone ∉ w.state.newMessageAlerts := by
      intro hm
      rw [(hasAlert_iff_mem _ _).mpr hm] at h
      exact Bool.noConfusion h
    simp [hn]
  | true =>
    cases deleteOk <;> simp [mem_deleteAlert] <;> intro q hq _ <;> exact hq

/-- C4: for every prior world and phone: after setAutomationStatus(phone, true)
whose PATCH came back, newMessageAlerts has no entry for phone; after
setAutomationStatus(phone, false), newMessageAlerts is unchanged; and in every
case each other phone has an entry exactly when it had one before. -/
theorem setAutomationStatus_alert_cleared_when_on (toLowerCase : String → String)
    (w : World) (phone : String) (patchOk deleteOk : Bool) :
    phone ∉ (setAutomationStatus toLowerCase w phone true true
        deleteOk).state.newMessageAlerts ∧
    (setAutomationStatus toLowerCase w phone false patchOk deleteOk).state.newMessageAlerts =
      w.state.newMessageAlerts ∧
    ∀ (enabled : Bool) (q : String), q ≠ phone →
      (q ∈ (setAutomationStatus toLowerCase w phone enabled patchOk
          deleteOk).state.newMessageAlerts ↔ q ∈ w.state.newMessageAlerts) := by
  unfold setAutomationStatus setAutomationStatusResume setAutomationStatusStart toggleInputArea
  dsimp only
  refine ⟨?_, ?_, ?_⟩
  · cases h : hasAlert w.state.newMessageAlerts phone with
    | false =>
      have hn : phone ∉ w.state.newMessageAlerts := by
        intro hm
        rw [(hasAlert_iff_mem _ _).mpr hm] at h
        exact Bool.noConfusion h
      simp [h, hn]
    | true => cases deleteOk <;> simp [h, mem_deleteAlert]
  · cases patchOk <;> simp
  · intro enabled q hq
    cases patchOk
    · simp
    · cases enabled
      · simp
      · cases h : hasAlert w.state.newMessageAlerts phone with
        | false => simp [h]
        | true => cases deleteOk <;> simp [h, mem_deleteAlert, hq]

/-! ## Filters -/

/-- C6: for every prior world, after the removeFilters click handler has run
state.filters equals the initial filters (byDate false, date null,
onlyFollowUp false, onlyUnread false) and every other field of state is
unchanged; running the handler a second time changes neither the state nor the
page any further. -/
theorem removeFiltersClick_resets_filters (w : World) :
    (removeFiltersClick w).state.filters =
      { byDate := false, date := none, onlyFollowUp := false, onlyUnread := false } ∧
    (removeFiltersClick w).state = { w.state with filters := initialFilters } ∧
    (removeFiltersClick (removeFiltersClick w)).state = (removeFiltersClick w).state ∧
    (removeFiltersClick (removeFiltersClick w)).dom = (removeFiltersClick w).dom := by
  refine ⟨rfl, rfl, rfl, rfl⟩

/-! ## The contact list -/

theorem startsWithChars_iff (s q : List Char) : startsWithChars s q = true ↔ q <+: s := by
  induction s generalizing q with
  | nil =>
    cases q with
    | nil => simp [startsWithChars]
    | cons d ds => simp [startsWithChars]
  | cons c cs ih =>
    cases q with
    | nil => simp [startsWithChars]
    | cons d ds =>
      simp only [startsWithChars, Bool.and_eq_true, beq_iff_eq, ih, List.cons_prefix_cons]
      constructor
      · rintro ⟨h₁, h₂⟩
        exact ⟨h₁.symm, h₂⟩
      · rintro ⟨h₁, h₂⟩
        exact ⟨h₁.symm, h₂⟩

theorem includesChars_iff (s q : List Char) : includesChars s q = true ↔ q <:+: s := by
  induction s with
  | nil =>
    simp only [includesChars, startsWithChars_iff, List.prefix_nil, List.infix_nil]
  | cons c cs ih =>
    simp only [includesChars, Bool.or_eq_true, startsWithChars_iff, ih, List.infix_cons_iff]

theorem includes_iff (s q : String) : includes s q = true ↔ q.data <:+: s.data :=
  includesChars_iff s.data q.data

theorem filteredContacts_eq (f : String → String) (w : World) :
    filteredContacts f w = w.state.contacts.filter (fun c =>
      matchesSearch f (f w.dom.searchContacts) c &&
        (!w.state.filters.onlyUnread || hasAlert w.state.newMessageAlerts c.phone)) := by
  unfold filteredContacts
  dsimp only
  cases w.state.filters.onlyUnread with
  | false => simp
  | true => simp [List.filter_filter, Bool.and_comm]

theorem chatItem_contact (s : State) (contact : Contact) (item : ChatItem)
    (h : chatItem s contact = some item) :
    item.contact = contact ∧ item.badge = hasAlert s.newMessageAlerts contact.phone := by
  unfold chatItem at h
  dsimp only at h
  split at h
  · exact Option.noConfusion h
  · cases h
    exact ⟨rfl, rfl⟩

theorem renderRows_rows (s : State) (contacts : List Contact) :
    (renderRows s contacts).1.map (fun item => item.contact) <+: contacts ∧
    ((renderRows s contacts).2 = false →
      (renderRows s contacts).1.map (fun item => item.contact) = contacts) ∧
    ∀ item ∈ (renderRows s contacts).1,
      item.contact ∈ contacts ∧ item.badge = hasAlert s.newMessageAlerts item.contact.phone := by
  induction contacts with
  | nil => simp [renderRows]
  | cons contact rest ih =>
    unfold renderRows
    cases hc : chatItem s contact with
    | none => simp
    | some item =>
      obtain ⟨hcontact, hbadge⟩ := chatItem_contact s contact item hc
      obtain ⟨h₁, h₂, h₃⟩ := ih
      refine ⟨?_, ?_, ?_⟩
      · simp only [List.map_cons, hcontact]
        exact List.cons_prefix_cons.mpr ⟨rfl, h₁⟩
      · intro hno
        simp only [List.map_cons, hcontact]
        rw [h₂ hno]
      · intro it hit
        rcases List.mem_cons.mp hit with rfl | hit
        · rw [hcontact]
          exact ⟨List.mem_cons_self _ _, hbadge⟩
        · exact ⟨List.mem_cons_of_mem _ (h₃ it hit).1, (h₃ it hit).2⟩

theorem renderContacts_contacts (f : String → String) (w : World) :
    (renderContacts f w).1.dom.contactsList = (renderRows w.state (filteredContacts f w)).1 ∧
    (renderContacts f w).2 = (renderRows w.state (filteredContacts f w)).2 := by
  unfold renderContacts
  split
  · rename_i h
    rw [List.length_eq_zero.mp h]
    exact ⟨rfl, rfl⟩
  · exact ⟨rfl, rfl⟩

/-- What renderContacts does render, for every world and every case mapping:
the rows show a leading part of the contacts of state.contacts that pass the
search test and, under onlyUnread, the alert test, in their order; they show
all of them when renderContacts does not throw; and with the unread filter on
every row carries the unread badge. -/
theorem renderContacts_renders_matching_unless_throw (toLowerCase : String → String)
    (w : World) :
    ∃ shown : Contact → Bool,
      (∀ c, shown c = true ↔
        (((toLowerCase w.dom.searchContacts).data <:+:
              (toLowerCase (c.client_name.getD "")).data ∨
            (toLowerCase w.dom.searchContacts).data <:+: (toLowerCase c.phone).data) ∧
          (w.state.filters.onlyUnread = true → c.phone ∈ w.state.newMessageAlerts))) ∧
      (renderContacts toLowerCase w).1.dom.contactsList.map (fun item => item.contact) <+:
        w.state.contacts.filter shown ∧
      ((renderContacts toLowerCase w).2 = false →
        (renderContacts toLowerCase w).1.dom.contactsList.map (fun item => item.contact) =
          w.state.contacts.filter shown) ∧
      (w.state.filters.onlyUnread = true →
        ∀ item ∈ (renderContacts toLowerCase w).1.dom.contactsList, item.badge = true) := by
  refine ⟨fun c => matchesSearch toLowerCase (toLowerCase w.dom.searchContacts) c &&
      (!w.state.filters.onlyUnread || hasAlert w.state.newMessageAlerts c.phone), ?_, ?_, ?_, ?_⟩
  · intro c
    simp only [matchesSearch, Bool.and_eq_true, Bool.or_eq_true, includes_iff,
      Bool.not_eq_true', hasAlert_iff_mem]
    constructor
    · rintro ⟨h₁, h₂⟩
      refine ⟨h₁, fun hu => ?_⟩
      rcases h₂ with h₂ | h₂
      · rw [hu] at h₂
        exact Bool.noConfusion h₂
      · exact h₂
    · rintro ⟨h₁, h₂⟩
      refine ⟨h₁, ?_⟩
      cases hu : w.state.filters.onlyUnread with
      | false => exact Or.inl rfl
      | true => exact Or.inr (h₂ hu)
  · rw [(renderContacts_contacts toLowerCase w).1, ← filteredContacts_eq]
    exact (renderRows_rows w.state (filteredContacts toLowerCase w)).1
  · intro hno
    rw [(renderContacts_contacts toLowerCase w).2] at hno
    rw [(renderContacts_contacts toLowerCase w).1, ← filteredContacts_eq]
    exact (renderRows_rows w.state (filteredContacts toLowerCase w)).2.1 hno
  · intro hu item hitem
    rw [(renderContacts_contacts toLowerCase w).1] at hitem
    obtain ⟨hmem, hbadge⟩ :=
      (renderRows_rows w.state (filteredContacts toLowerCase w)).2.2 item hitem
    rw [filteredContacts_eq] at hmem
    have hc2 := (List.mem_filter.mp hmem).2
    simp only [hu, Bool.not_true, Bool.false_or, Bool.and_eq_true] at hc2
    rw [hbadge]
    exact hc2.2

/-- C5 fails on the code: with the contacts Alice, " Bob " and Carol loaded, an
empty search box and no filter, all three contacts pass the filters of
renderContacts, but getAvatarInitials throws on the name " Bob " (its first and
last words are empty), so renderContacts throws and leaves only the row of
Alice in the list: Bob and Carol are not rendered. -/
theorem renderContacts_stops_at_padded_name :
    filteredContacts asciiLower threeContactsLoaded = threeContacts ∧
    getAvatarInitials (some " Bob ") = none ∧
    (renderContacts asciiLower threeContactsLoaded).2 = true ∧
    (renderContacts asciiLower threeContactsLoaded).1.dom.contactsList.map
      (fun item => item.contact.phone) = ["911"] := by
  decide

/-! ## Pagination -/

/-- Where the page holds at most state.limit messages the two tests of the
pagination agree: for every world with a selected contact, updatePaginationInfo
leaves the Next button enabled if and only if a click on Next advances the
page. -/
theorem next_enabled_iff_click_advances (w : World)
    (hsel : truthyStr w.state.selectedPhone = true)
    (hlen : (w.state.messages.length : Int) ≤ w.state.limit) :
    (updatePaginationInfo w).dom.nextDisabled = false ↔ nextAdvances w = true := by
  cases hp : w.state.selectedPhone with
  | none =>
    rw [hp] at hsel
    exact Bool.noConfusion hsel
  | some phone =>
    rw [hp] at hsel
    have hne : (phone != "") = true := hsel
    unfold nextAdvances nextBtnClick
    simp only [hp, hne, Bool.true_and]
    by_cases heq : (w.state.messages.length : Int) = w.state.limit
    · simp [updatePaginationInfo, heq, fetchConversationStart]
    · have hlt : (w.state.messages.length : Int) < w.state.limit := lt_of_le_of_ne hlen heq
      simp [updatePaginationInfo, heq, hlt]

/-- The agreement of the two tests at a full page of 20 messages. -/
theorem next_enabled_iff_click_advances_full_page :
    truthyStr (pageOf 20).state.selectedPhone = true ∧
    ((pageOf 20).state.messages.length : Int) ≤ (pageOf 20).state.limit ∧
    ((updatePaginationInfo (pageOf 20)).dom.nextDisabled = false ↔
      nextAdvances (pageOf 20) = true) :=
  ⟨by decide, by decide, next_enabled_iff_click_advances (pageOf 20) (by decide) (by decide)⟩

/-- C8 fails on the code: with a contact selected and limit 20, once the
backend has answered fetchConversation with 21 messages the page holds 21
messages and updatePaginationInfo has left the Next button enabled (21 is not
less than the limit), yet the click handler, which tests for equality with the
limit, ignores the click: the world after the click is the world before it, so
the offset does not move and nothing is fetched. -/
theorem next_enabled_but_click_ignored :
    truthyStr chatOpen.state.selectedPhone = true ∧
    (fetchConversation asciiLower chatOpen "919876543210"
      (some (List.replicate 21 sampleMessage)) (some (JSVal.bool false)) true).state.messages
      = (pageOf 21).state.messages ∧
    (fetchConversation asciiLower chatOpen "919876543210"
      (some (List.replicate 21 sampleMessage)) (some (JSVal.bool false)) true).dom.nextDisabled
      = false ∧
    nextBtnClick (fetchConversation asciiLower chatOpen "919876543210"
      (some (List.replicate 21 sampleMessage)) (some (JSVal.bool false)) true) =
      fetchConversation asciiLower chatOpen "919876543210"
        (some (List.replicate 21 sampleMessage)) (some (JSVal.bool false)) true ∧
    (updatePaginationInfo (pageOf 21)).dom.nextDisabled = false ∧
    nextBtnClick (pageOf 21) = pageOf 21 ∧
    nextAdvances (pageOf 21) = false := by
  decide

/-! ## Sending files -/

theorem sentFiles_append (l₁ l₂ : List Event) :
    sentFiles (l₁ ++ l₂) = sentFiles l₁ ++ sentFiles l₂ := by
  induction l₁ with
  | nil => rfl
  | cons e rest ih =>
    cases e with
    | fetch r => cases r <;> simp [sentFiles, ih]
    | invoke t => simp [sentFiles, ih]
    | timeout ms t => simp [sentFiles, ih]
    | alertTooLarge n => simp [sentFiles, ih]
    | alertUploadFailed n => simp [sentFiles, ih]

theorem sendFileMessage_sent (w : World) (phone : String) (file : File) (reply : Option Bool) :
    sentFiles (sendFileMessage w phone file reply).1.log = sentFiles w.log ++ [(phone, file)] := by
  unfold sendFileMessage
  rcases reply with _ | _ | _ <;> simp [sentFiles_append, sentFiles]

theorem fileLoop_sent (replies : Nat → Option Bool) (phone : String) (files : List File) :
    ∀ (w : World) (sent : Nat),
      sentFiles (fileLoop replies phone w sent files).log =
        sentFiles w.log ++
          (files.filter (fun f => decide (f.size ≤ 16 * 1024 * 1024))).map
            (fun f => (phone, f)) := by
  induction files with
  | nil =>
    intro w sent
    simp [fileLoop]
  | cons file rest ih =>
    intro w sent
    unfold fileLoop
    by_cases hbig : file.size > maxFileSize
    · have hnot : ¬ file.size ≤ 16 * 1024 * 1024 := by
        unfold maxFileSize at hbig
        omega
      rw [if_pos hbig, ih]
      simp [hnot, sentFiles_append, sentFiles]
    · have hle : file.size ≤ 16 * 1024 * 1024 := by
        unfold maxFileSize at hbig
        omega
      rw [if_neg hbig]
      dsimp only
      rw [ih]
      have hsent : sentFiles (if (sendFileMessage w phone file (replies sent)).2 = true then
            (sendFileMessage w phone file (replies sent)).1
          else (sendFileMessage w phone file (replies sent)).1.emit
            (Event.alertUploadFailed file.name)).log = sentFiles w.log ++ [(phone, file)] := by
        split
        · exact sendFileMessage_sent w phone file (replies sent)
        · rw [emit_log, sentFiles_append, sendFileMessage_sent]
          simp [sentFiles]
      rw [hsent]
      simp [hle]

/-- C7: for every list of chosen files, with a contact selected, and whatever
the uploads answer, the calls of sendFileMessage that the fileInput change
handler adds to the trace are exactly the files of at most 16*1024*1024 bytes,
each sent to the selected phone, in list order: no larger file is sent, and an
oversized file does not stop the files after it. -/
theorem fileInputChange_sends_exactly_small_files (w : World) (phone : String)
    (files : List File) (replies : Nat → Option Bool)
    (hsel : w.state.selectedPhone = some phone) (hphone : phone ≠ "") :
    sentFiles (fileInputChange w files replies).log =
      sentFiles w.log ++
        (files.filter (fun f => decide (f.size ≤ 16 * 1024 * 1024))).map
          (fun f => (phone, f)) := by
  unfold fileInputChange
  rw [hsel]
  dsimp only
  cases files with
  | nil => simp
  | cons file rest =>
    have hcond : (((file :: rest).length = 0) || phone == "") = false := by
      simp [hphone]
    simp only [hcond]
    exact fileLoop_sent replies phone (file :: rest) w 0

/-- C7 at three chosen files, the second one byte over the limit: the first
and the third are sent. -/
theorem fileInputChange_sends_exactly_small_files_witness :
    chatOpen.state.selectedPhone = some "919876543210" ∧
    sentFiles (fileInputChange chatOpen chosenFiles (fun _ => some true)).log =
      sentFiles chatOpen.log ++
        (chosenFiles.filter (fun f => decide (f.size ≤ 16 * 1024 * 1024))).map
          (fun f => ("919876543210", f)) :=
  ⟨rfl, fileInputChange_sends_exactly_small_files chatOpen "919876543210" chosenFiles
    (fun _ => some true) rfl (by decide)⟩

/-! ## Polling the contacts -/

theorem alertChecks_append (l₁ l₂ : List Event) :
    alertChecks (l₁ ++ l₂) = alertChecks l₁ ++ alertChecks l₂ := by
  induction l₁ with
  | nil => rfl
  | cons e rest ih =>
    cases e with
    | fetch r => simp [alertChecks, ih]
    | invoke t => cases t <;> simp [alertChecks, ih]
    | timeout ms t => simp [alertChecks, ih]
    | alertTooLarge n => simp [alertChecks, ih]
    | alertUploadFailed n => simp [alertChecks, ih]

theorem checkContact_state (w : World) (contact : Contact) :
    (checkContact w contact).state = w.state := by
  unfold checkContact
  split
  · rfl
  · split
    · split <;> rfl
    · rfl

theorem checkContact_checks (w : World) (contact : Contact) :
    alertChecks (checkContact w contact).log =
      alertChecks w.log ++ (if hasNewActivity w.state contact then [contact.phone] else []) := by
  unfold checkContact hasNewActivity
  split
  · simp
  · split
    · rename_i h₁
      split
      · rename_i h₂
        simp [h₁, h₂, checkAndSetNewMessageAlertStart, alertChecks_append, alertChecks]
      · rename_i h₂
        simp [h₁, h₂]
    · rename_i h₁
      simp [h₁]

theorem foldl_checkContact (newContacts : List Contact) :
    ∀ w : World,
      (newContacts.foldl checkContact w).state = w.state ∧
      alertChecks (newContacts.foldl checkContact w).log =
        alertChecks w.log ++
          (newContacts.filter (hasNewActivity w.state)).map (fun c => c.phone) := by
  induction newContacts with
  | nil =>
    intro w
    simp
  | cons contact rest ih =>
    intro w
    rw [List.foldl_cons]
    obtain ⟨hs, hl⟩ := ih (checkContact w contact)
    rw [checkContact_state] at hs
    refine ⟨hs, ?_⟩
    rw [hl, checkContact_checks, checkContact_state]
    cases h : hasNewActivity w.state contact <;> simp [h]

/-- C9: for every previous world and every list returned by the backend,
fetchContacts invokes checkAndSetNewMessageAlert(phone), in the order of the
returned list, for exactly the returned contacts for which a contact with the
same phone was in the previous state.contacts (find takes the first one), the
returned last_time differs from that previous one, the phone is not
state.selectedPhone, and last_direction is "user" or "incoming"; afterwards
state.contacts equals the returned list. -/
theorem fetchContacts_checks_contacts_with_new_activity (toLowerCase : String → String)
    (w : World) (newContacts : List Contact) :
    ∃ checked : Contact → Bool,
      (∀ c, checked c = true ↔
        ((∃ old, w.state.contacts.find? (fun o => o.phone == c.phone) = some old ∧
            c.last_time ≠ old.last_time) ∧
          some c.phone ≠ w.state.selectedPhone ∧
          (c.last_direction = some "user" ∨ c.last_direction = some "incoming"))) ∧
      alertChecks (fetchContacts toLowerCase w (some newContacts)).log =
        alertChecks w.log ++ (newContacts.filter checked).map (fun c => c.phone) ∧
      (fetchContacts toLowerCase w (some newContacts)).state.contacts = newContacts := by
  refine ⟨hasNewActivity w.state, ?_, ?_, ?_⟩
  · intro c
    unfold hasNewActivity
    cases hf : w.state.contacts.find? (fun o => o.phone == c.phone) with
    | none => simp
    | some old => simp
  · unfold fetchContacts fetchContactsResume fetchContactsStart
    dsimp only
    rw [renderContacts_log]
    have h := (foldl_checkContact newContacts (w.emit (Event.fetch (Request.getContacts
      w.state.filters.onlyFollowUp
      (if (w.state.filters.byDate && truthyStr w.state.filters.date) = true then
        w.state.filters.date else none))))).2
    rw [emit_state, emit_log, alertChecks_append] at h
    simpa [alertChecks] using h
  · unfold fetchContacts fetchContactsResume
    dsimp only
    rw [renderContacts_state]

end WhatsApp
